import Mathlib

/-!
Verification development for the tmux orchestrator bridge
(`src/scripts/tmux_utils.py` and `src/utils/tmux_wrapper.py`).

The Python code is shallowly embedded: JSON values become the inductive
type `JVal`, the external `tmux` process becomes the oracle field of a
`World`, `subprocess.run` becomes `runProc`, and every orchestrator
method becomes a Lean function returning an `Out` record carrying the
result (or an uncaught Python exception), the ordered list of external
commands invoked, and the number of interactive confirmation prompts
issued.
-/

/-- A JSON value as produced by Python `json.loads` (floats are not used
by any request shape considered here and are omitted). -/
inductive JVal where
  | null : JVal
  | bool (b : Bool) : JVal
  | int (n : Int) : JVal
  | str (s : String) : JVal
  | arr (elems : List JVal) : JVal
  | obj (fields : List (String × JVal)) : JVal
deriving Repr

/-- Python truthiness of a decoded JSON value (`bool(x)`). -/
def jvTruthy : JVal → Bool
  | .null => false
  | .bool b => b
  | .int n => n != 0
  | .str s => s != ""
  | .arr xs => !xs.isEmpty
  | .obj kvs => !kvs.isEmpty

/-- Python `isinstance(x, int)`: true for ints and bools. -/
def jvIsInt : JVal → Bool
  | .int _ => true
  | .bool _ => true
  | _ => false

/-- Numeric value of ints and bools (Python treats `True` as 1, `False`
as 0 in arithmetic comparisons); other shapes are never passed here. -/
def jvIntVal : JVal → Int
  | .int n => n
  | .bool b => if b then 1 else 0
  | _ => 0

/-- Python `d.get(k, default)` on a decoded JSON object (later duplicate
keys win, as in `json.loads`). -/
def pyGet (kvs : List (String × JVal)) (k : String) (d : JVal) : JVal :=
  match (kvs.filter (fun p => p.fst == k)).getLast? with
  | some p => p.snd
  | none => d

/-- Python `k in d` on a decoded JSON object. -/
def pyHasKey (kvs : List (String × JVal)) (k : String) : Bool :=
  kvs.any (fun p => p.fst == k)

mutual

/-- Python `repr` of a decoded JSON value (element quoting uses the
single-quote convention of CPython). -/
def pyRepr : JVal → String
  | .null => "None"
  | .bool b => if b then "True" else "False"
  | .int n => toString n
  | .str s => "\x27" ++ s ++ "\x27"
  | .arr xs => "[" ++ pyReprList xs ++ "]"
  | .obj kvs => "\x7b" ++ pyReprObj kvs ++ "\x7d"

/-- Comma-separated `repr` of list elements. -/
def pyReprList : List JVal → String
  | [] => ""
  | [x] => pyRepr x
  | x :: y :: xs => pyRepr x ++ ", " ++ pyReprList (y :: xs)

/-- Comma-separated `repr` of dict entries. -/
def pyReprObj : List (String × JVal) → String
  | [] => ""
  | [(k, v)] => "\x27" ++ k ++ "\x27: " ++ pyRepr v
  | (k, v) :: e :: kvs =>
      "\x27" ++ k ++ "\x27: " ++ pyRepr v ++ ", " ++ pyReprObj (e :: kvs)

end

/-- Python `str` of a decoded JSON value, as used by f-string
interpolation. -/
def pyStr : JVal → String
  | .null => "None"
  | .bool b => if b then "True" else "False"
  | .int n => toString n
  | .str s => s
  | .arr xs => pyRepr (.arr xs)
  | .obj kvs => pyRepr (.obj kvs)

/-- Python `x == s` for a decoded JSON value against a string literal. -/
def jvEqStr (j : JVal) (s : String) : Bool :=
  match j with
  | .str t => t == s
  | _ => false

/-- Python `x == n` for a decoded JSON value against an int (bools
compare numerically: `True == 1`). -/
def jvEqInt (j : JVal) (n : Int) : Bool :=
  match j with
  | .int m => m == n
  | .bool b => (if b then (1 : Int) else 0) == n
  | _ => false

/-- Python substring test `sub in s`, as a scan over character
lists. -/
def isSubChars (sub : List Char) : List Char → Bool
  | [] => sub.isEmpty
  | c :: rest => sub.isPrefixOf (c :: rest) || isSubChars sub rest

/-- Python substring test over strings. -/
def pyInStr (sub s : String) : Bool :=
  isSubChars sub.data s.data

/-- Strip characters from both ends of a character list, as Python
`str.strip()` does with whitespace. -/
def pyStripChars (l : List Char) : List Char :=
  ((l.dropWhile Char.isWhitespace).reverse.dropWhile Char.isWhitespace).reverse

/-- Python `s.strip()`. -/
def pyStrip (s : String) : String := String.mk (pyStripChars s.data)

/-- Split a character list on a separator character, keeping empty
groups, as Python `str.split(sep)` does. -/
def splitChar (sep : Char) : List Char → List (List Char)
  | [] => [[]]
  | ch :: rest =>
      let r := splitChar sep rest
      if ch == sep then [] :: r
      else
        match r with
        | [] => [[ch]]
        | g :: gs => (ch :: g) :: gs

/-- Python `s.split(sep)` for a one-character separator. -/
def pySplitC (s : String) (sep : Char) : List String :=
  (splitChar sep s.data).map String.mk

/-- Python `s.lower()`. -/
def pyLower (s : String) : String := String.mk (s.data.map Char.toLower)

/-- Python `s.startswith(p)`. -/
def pyStartsWith (s p : String) : Bool := p.data.isPrefixOf s.data

/-- Accumulate the value of a decimal digit run; `none` on any
non-digit. -/
def digitsValAux : List Char → Nat → Option Nat
  | [], acc => some acc
  | c :: rest, acc =>
      if c.isDigit then digitsValAux rest (acc * 10 + (c.toNat - 48)) else none

/-- The value of a non-empty decimal digit run. -/
def digitsVal : List Char → Option Nat
  | [] => none
  | c :: rest => digitsValAux (c :: rest) 0

/-- An uncaught Python exception: `subprocess.CalledProcessError` is
distinguished because several `except` clauses catch exactly it; every
other exception is carried as its message text. -/
inductive PyErr where
  | cpe (cmd : List String) (rc : Int) (stdout stderr : String) : PyErr
  | other (msg : String) : PyErr
deriving Repr

/-- The message of `str(e)` for a `subprocess.CalledProcessError`. -/
def cpeMsg (cmd : List String) (rc : Int) : String :=
  "Command \x27" ++ pyRepr (.arr (cmd.map JVal.str)) ++
    "\x27 returned non-zero exit status " ++ toString rc ++ "."

/-- The message of `str(e)` for any modelled exception. -/
def pyErrStr : PyErr → String
  | .cpe cmd rc _ _ => cpeMsg cmd rc
  | .other msg => msg

/-- Outcome of invoking one external command: normal exit with captured
output, non-zero exit (raises `CalledProcessError` under `check=True`),
or the binary being absent (raises `FileNotFoundError`). -/
inductive ProcRes where
  | ok (stdout stderr : String) : ProcRes
  | err (rc : Int) (stdout stderr : String) : ProcRes
  | absent (msg : String) : ProcRes
deriving Repr

/-- The deterministic environment a run is evaluated against: the
behaviour of each external command, the wall-clock strings used by
`datetime.now`, and the operator's reply on the confirmation channel. -/
structure World where
  proc : List String → ProcRes
  now_iso : String
  now_hms : String
  op_input : String

/-- Effectful outcome of a code fragment: its result or uncaught
exception, the external commands it invoked in order, and the number of
interactive confirmation prompts it issued. -/
structure Out (α : Type) where
  res : Except PyErr α
  calls : List (List String)
  prompts : Nat
deriving Repr

/-- Pure fragment: no calls, no prompts. -/
def Out.pure (a : α) : Out α := ⟨.ok a, [], 0⟩

/-- Raise an exception from a fragment. -/
def Out.raise (e : PyErr) : Out α := ⟨.error e, [], 0⟩

/-- Lift an exception-only computation into a fragment. -/
def Out.liftE (x : Except PyErr α) : Out α := ⟨x, [], 0⟩

/-- Sequencing: an uncaught exception aborts; calls and prompts
accumulate in order. -/
def Out.bind (x : Out α) (f : α → Out β) : Out β :=
  match x.res with
  | .error e => ⟨.error e, x.calls, x.prompts⟩
  | .ok a =>
      let y := f a
      ⟨y.res, x.calls ++ y.calls, x.prompts + y.prompts⟩

instance : Monad Out where
  pure := Out.pure
  bind := Out.bind

/-- Python `try ... except subprocess.CalledProcessError as e: <handler>`
around a fragment: only `CalledProcessError` is handled, everything else
keeps propagating. -/
def Out.catchCpe (x : Out α) (h : List String → Int → String → String → α) : Out α :=
  match x.res with
  | .error (.cpe cmd rc so se) => ⟨.ok (h cmd rc so se), x.calls, x.prompts⟩
  | _ => x

/-- `subprocess.run(cmd, capture_output=True, check=True)`: a non-zero
exit raises `CalledProcessError`; a missing binary raises
`FileNotFoundError` (carried as `PyErr.other`). -/
def runProc (w : World) (cmd : List String) : Out (String × String) :=
  match w.proc cmd with
  | .ok so se => ⟨.ok (so, se), [cmd], 0⟩
  | .err rc so se => ⟨.error (.cpe cmd rc so se), [cmd], 0⟩
  | .absent m => ⟨.error (.other m), [cmd], 0⟩

/-- `subprocess.run(cmd, capture_output=True)` without `check`: a
non-zero exit is not an error; a missing binary still raises. -/
def runProcNoCheck (w : World) (cmd : List String) : Out Unit :=
  match w.proc cmd with
  | .ok _ _ => ⟨.ok (), [cmd], 0⟩
  | .err _ _ _ => ⟨.ok (), [cmd], 0⟩
  | .absent m => ⟨.error (.other m), [cmd], 0⟩

/-- Python `len(x)` on a decoded JSON value (`TypeError` on shapes with
no length). -/
def pyLen : JVal → Except PyErr Int
  | .str s => .ok s.length
  | .arr xs => .ok xs.length
  | .obj kvs => .ok kvs.length
  | _ => .error (.other "TypeError: object has no len()")

/-- Python `x[i]` for a small non-negative index on a decoded JSON value:
lists index, strings yield one-character strings, dicts raise `KeyError`
for an int key, other shapes raise `TypeError`. -/
def pyIndex : JVal → Nat → Except PyErr JVal
  | .arr xs, i =>
      match xs.get? i with
      | some v => .ok v
      | none => .error (.other "IndexError: list index out of range")
  | .str s, i =>
      match s.data.get? i with
      | some c => .ok (.str (String.singleton c))
      | none => .error (.other "IndexError: string index out of range")
  | .obj _, _ => .error (.other "KeyError")
  | _, _ => .error (.other "TypeError: object is not subscriptable")

/-- Python `int(s)` on a string: surrounding whitespace and an optional
sign, then a non-empty digit run (`ValueError` when unparsable). -/
def pyParseInt (s : String) : Except PyErr Int :=
  let core : Option Int :=
    match pyStripChars s.data with
    | [] => none
    | c :: rest =>
        if c == '-' then (digitsVal rest).map (fun n => -(n : Int))
        else if c == '+' then (digitsVal rest).map (fun n => (n : Int))
        else (digitsVal (c :: rest)).map (fun n => (n : Int))
  match core with
  | some n => .ok n
  | none => .error (.other ("ValueError: invalid literal for int() with base 10: " ++ s))

/-- Python `parts[i]` on a list of strings (`IndexError` when short). -/
def pyListIdx (parts : List String) (i : Nat) : Except PyErr String :=
  match parts.get? i with
  | some s => .ok s
  | none => .error (.other "IndexError: list index out of range")

/-- A window record parsed from `tmux list-windows` output
(dataclass `TmuxWindow`). -/
structure TmuxWindow where
  session_name : String
  window_index : Int
  window_name : String
  active : Bool
deriving Repr

/-- A session record parsed from `tmux list-sessions` output
(dataclass `TmuxSession`). -/
structure TmuxSession where
  name : String
  windows : List TmuxWindow
  attached : Bool
deriving Repr

/-- The mutable configuration of a `TmuxOrchestrator` instance. -/
structure Orch where
  safety_mode : Bool
  max_lines_capture : Int
deriving Repr

/-- `TmuxOrchestrator.__init__`: safety on, capture limit 1000. -/
def TmuxOrchestrator.new : Orch := { safety_mode := true, max_lines_capture := 1000 }

/-- The `tmux list-sessions` invocation of `get_tmux_sessions`. -/
def listSessionsCmd : List String :=
  ["tmux", "list-sessions", "-F", "#\x7bsession_name\x7d:#\x7bsession_attached\x7d"]

/-- The `tmux list-windows` invocation of `get_tmux_sessions`. -/
def listWindowsCmd (session_name : String) : List String :=
  ["tmux", "list-windows", "-t", session_name, "-F",
   "#\x7bwindow_index\x7d:#\x7bwindow_name\x7d:#\x7bwindow_active\x7d"]

/-- The target-existence check used by capture and send-keys. -/
def listPanesCmd (target : String) : List String :=
  ["tmux", "list-panes", "-t", target]

/-- The `tmux capture-pane` invocation of `capture_window_content`. -/
def capturePaneCmd (target numStr : String) : List String :=
  ["tmux", "capture-pane", "-t", target, "-p", "-S", "-" ++ numStr]

/-- The `tmux display-message` invocation of `get_window_info`. -/
def displayMsgCmd (target : String) : List String :=
  ["tmux", "display-message", "-t", target, "-p",
   "#\x7bwindow_name\x7d:#\x7bwindow_active\x7d:#\x7bwindow_panes\x7d:#\x7bwindow_layout\x7d"]

/-- The `tmux send-keys` invocation sending one key string. -/
def sendKeysCmd (target keys : String) : List String :=
  ["tmux", "send-keys", "-t", target, keys]

/-- Parse one `list-windows` output line inside `get_tmux_sessions`:
blank lines are skipped; the three-way unpacking raises `ValueError` on
any other field count, as does `int()` on the index field. -/
def parseWindowLine (session_name line : String) : Except PyErr (Option TmuxWindow) :=
  if line == "" then .ok none
  else
    match pySplitC line ':' with
    | [wi, wn, wa] =>
        match pyParseInt wi with
        | .ok n => .ok (some ⟨session_name, n, wn, wa == "1"⟩)
        | .error e => .error e
    | _ => .error (.other "ValueError: window line does not unpack into three fields")

/-- The window loop of `get_tmux_sessions` over split output lines. -/
def windowsFromLines (session_name : String) : List String → Except PyErr (List TmuxWindow)
  | [] => .ok []
  | line :: rest =>
      match parseWindowLine session_name line with
      | .error e => .error e
      | .ok none => windowsFromLines session_name rest
      | .ok (some win) =>
          match windowsFromLines session_name rest with
          | .error e => .error e
          | .ok ws => .ok (win :: ws)

/-- The session loop of `get_tmux_sessions` over split output lines:
blank lines are skipped; a line that does not unpack into two fields
raises `ValueError`; each session triggers a `list-windows` call. -/
def sessionsFromLines (w : World) : List String → Out (List TmuxSession)
  | [] => Out.pure []
  | line :: rest =>
      if line == "" then sessionsFromLines w rest
      else
        match pySplitC line ':' with
        | [session_name, attached] =>
            Out.bind (runProc w (listWindowsCmd session_name)) (fun wr =>
              Out.bind (Out.liftE (windowsFromLines session_name (pySplitC (pyStrip wr.1) '\n'))) (fun wins =>
                Out.bind (sessionsFromLines w rest) (fun sess =>
                  Out.pure (⟨session_name, wins, attached == "1"⟩ :: sess))))
        | _ => Out.raise (.other "ValueError: session line does not unpack into two fields")

/-- `TmuxOrchestrator.get_tmux_sessions`: lists sessions and their
windows; the surrounding `try` catches `CalledProcessError` from any of
the external calls and returns the empty list. -/
def TmuxOrchestrator.get_tmux_sessions (o : Orch) (w : World) : Out (List TmuxSession) :=
  Out.catchCpe
    (Out.bind (runProc w listSessionsCmd) (fun r =>
      sessionsFromLines w (pySplitC (pyStrip r.1) '\n')))
    (fun _ _ _ _ => [])

/-- `TmuxOrchestrator.capture_window_content`: validates the session
name and window index, rejects non-positive line counts, clamps the
line count to `max_lines_capture`, checks target existence, then
captures; `CalledProcessError` from either external call becomes an
in-band error string. The comparison `num_lines <= 0` raises
`TypeError` when `num_lines` is neither an int nor a bool. -/
def TmuxOrchestrator.capture_window_content (o : Orch) (session_name window_index num_lines : JVal)
    (w : World) : Out String :=
  if !jvTruthy session_name || !jvIsInt window_index || jvIntVal window_index < 0 then
    Out.pure ("Error: Invalid session name or window index: " ++
      pyStr session_name ++ ":" ++ pyStr window_index)
  else if !jvIsInt num_lines then
    Out.raise (.other "TypeError: comparison not supported for num_lines")
  else if jvIntVal num_lines ≤ 0 then
    Out.pure "Error: Number of lines must be positive"
  else
    let nl : JVal :=
      if jvIntVal num_lines > o.max_lines_capture then .int o.max_lines_capture else num_lines
    let target := pyStr session_name ++ ":" ++ pyStr window_index
    Out.catchCpe
      (Out.bind (runProc w (listPanesCmd target)) (fun _ =>
        Out.bind (runProc w (capturePaneCmd target (pyStr nl))) (fun r =>
          Out.pure r.1)))
      (fun cmd rc _ se =>
        let base := "Error capturing content from " ++ target ++ ": " ++ cpeMsg cmd rc
        if se != "" then base ++ "\nDetails: " ++ se else base)

/-- `TmuxOrchestrator.get_window_info`: queries `display-message`; a
non-blank reply is split into four fields (raising `IndexError` or
`ValueError` on a shape mismatch) and enriched with captured content;
a blank reply falls off the end of the function and yields `None`;
`CalledProcessError` becomes an error dict. -/
def TmuxOrchestrator.get_window_info (o : Orch) (session_name window_index : JVal)
    (w : World) : Out JVal :=
  let target := pyStr session_name ++ ":" ++ pyStr window_index
  Out.catchCpe
    (Out.bind (runProc w (displayMsgCmd target)) (fun r =>
      let st := pyStrip r.1
      if st != "" then
        let parts := pySplitC st ':'
        Out.bind (Out.liftE (pyListIdx parts 0)) (fun p0 =>
        Out.bind (Out.liftE (pyListIdx parts 1)) (fun p1 =>
        Out.bind (Out.liftE (pyListIdx parts 2)) (fun p2 =>
        Out.bind (Out.liftE (pyParseInt p2)) (fun panes =>
        Out.bind (Out.liftE (pyListIdx parts 3)) (fun p3 =>
        Out.bind (TmuxOrchestrator.capture_window_content o session_name window_index (.int 50) w)
          (fun content =>
          Out.pure (JVal.obj [("name", .str p0), ("active", .bool (p1 == "1")),
            ("panes", .int panes), ("layout", .str p3), ("content", .str content)])))))))
      else Out.pure JVal.null))
    (fun cmd rc _ _ =>
      JVal.obj [("error", .str ("Could not get window info: " ++ cpeMsg cmd rc))])

/-- The interactive confirmation read of `send_keys_to_window`: one
prompt, confirmed exactly when the operator reply lowercases to
`yes`. -/
def promptConfirm (w : World) : Out Bool :=
  ⟨.ok (pyLower w.op_input == "yes"), [], 1⟩

/-- `TmuxOrchestrator.send_keys_to_window`: validates inputs (returning
`False` in-band), checks target existence (`False` on
`CalledProcessError`), prompts when `safety_mode and confirm`, then
sends the keys (`False` on `CalledProcessError`). A non-string key
value reaching the final call raises `TypeError` inside
`subprocess.run`. -/
def TmuxOrchestrator.send_keys_to_window (o : Orch) (session_name window_index keys confirm : JVal)
    (w : World) : Out Bool :=
  if !jvTruthy session_name || !jvIsInt window_index || jvIntVal window_index < 0 then
    Out.pure false
  else if !jvTruthy keys then
    Out.pure false
  else
    let target := pyStr session_name ++ ":" ++ pyStr window_index
    Out.bind
      (Out.catchCpe (Out.bind (runProc w (listPanesCmd target)) (fun _ => Out.pure true))
        (fun _ _ _ _ => false))
      (fun okTarget =>
        if !okTarget then Out.pure false
        else
          Out.bind
            (if o.safety_mode && jvTruthy confirm then promptConfirm w else Out.pure true)
            (fun proceed =>
              if !proceed then Out.pure false
              else
                match keys with
                | .str ks =>
                    Out.catchCpe
                      (Out.bind (runProc w (sendKeysCmd target ks)) (fun _ => Out.pure true))
                      (fun _ _ _ _ => false)
                | _ => Out.raise (.other "TypeError: expected str in subprocess argument list")))

/-- `TmuxOrchestrator.send_command_to_window`: rejects empty commands,
sends the command text through `send_keys_to_window`, and on its
success sends the submit keystroke `C-m` (`False` on
`CalledProcessError`). -/
def TmuxOrchestrator.send_command_to_window (o : Orch) (session_name window_index command confirm : JVal)
    (w : World) : Out Bool :=
  if !jvTruthy command then Out.pure false
  else
    Out.bind (TmuxOrchestrator.send_keys_to_window o session_name window_index command confirm w)
      (fun ok1 =>
        if !ok1 then Out.pure false
        else
          let target := pyStr session_name ++ ":" ++ pyStr window_index
          Out.catchCpe
            (Out.bind (runProc w (sendKeysCmd target "C-m")) (fun _ => Out.pure true))
            (fun _ _ _ _ => false))

/-- The status-record loop body of `get_all_windows_status` over the
windows of one session. -/
def windowsStatus (o : Orch) (w : World) (sname : String) : List TmuxWindow → Out (List JVal)
  | [] => Out.pure []
  | win :: rest =>
      Out.bind (TmuxOrchestrator.get_window_info o (.str sname) (.int win.window_index) w)
        (fun info =>
        Out.bind (windowsStatus o w sname rest) (fun others =>
          Out.pure (JVal.obj [("index", .int win.window_index), ("name", .str win.window_name),
            ("active", .bool win.active), ("info", info)] :: others)))

/-- The session loop of `get_all_windows_status`. -/
def sessionsStatus (o : Orch) (w : World) : List TmuxSession → Out (List JVal)
  | [] => Out.pure []
  | s :: rest =>
      Out.bind (windowsStatus o w s.name s.windows) (fun wins =>
        Out.bind (sessionsStatus o w rest) (fun others =>
          Out.pure (JVal.obj [("name", .str s.name), ("attached", .bool s.attached),
            ("windows", .arr wins)] :: others)))

/-- `TmuxOrchestrator.get_all_windows_status`: one `get_window_info`
per window of every session, assembled with a timestamp; the per-window
`info` value is embedded exactly as returned. -/
def TmuxOrchestrator.get_all_windows_status (o : Orch) (w : World) : Out JVal :=
  Out.bind (TmuxOrchestrator.get_tmux_sessions o w) (fun sessions =>
    Out.bind (sessionsStatus o w sessions) (fun sdata =>
      Out.pure (JVal.obj [("timestamp", .str w.now_iso), ("sessions", .arr sdata)])))

/-- The window loop of `find_window_by_name` over one session, raising
`AttributeError` at the first match attempt when the needle is not a
string (zero windows mean the needle is never touched). -/
def findMatchesW (window_name : JVal) (sname : String) : List TmuxWindow → Out (List JVal)
  | [] => Out.pure []
  | win :: rest =>
      match window_name with
      | .str n =>
          Out.bind (findMatchesW window_name sname rest) (fun ys =>
            Out.pure ((if pyInStr (pyLower n) (pyLower win.window_name) then
              [JVal.arr [.str sname, .int win.window_index]] else []) ++ ys))
      | _ => Out.raise (.other "AttributeError: object has no attribute lower")

/-- The session loop of `find_window_by_name`. -/
def findMatchesS (window_name : JVal) : List TmuxSession → Out (List JVal)
  | [] => Out.pure []
  | s :: rest =>
      Out.bind (findMatchesW window_name s.name s.windows) (fun xs =>
        Out.bind (findMatchesS window_name rest) (fun ys =>
          Out.pure (xs ++ ys)))

/-- `TmuxOrchestrator.find_window_by_name`: case-insensitive substring
match of the needle over all window names; matches are (session, index)
pairs, serialised as two-element arrays. -/
def TmuxOrchestrator.find_window_by_name (o : Orch) (window_name : JVal) (w : World) : Out JVal :=
  Out.bind (TmuxOrchestrator.get_tmux_sessions o w) (fun sessions =>
    Out.bind (findMatchesS window_name sessions) (fun ms =>
      Out.pure (.arr ms)))

/-- `TmuxOrchestrator._detect_window_role`: name/index heuristics, with
the raw (JSON-valued) window index compared numerically as Python
`==` does. -/
def TmuxOrchestrator.detect_window_role (window_name : String) (window_index : JVal) : String :=
  let name_lower := pyLower window_name
  if pyInStr "project" name_lower || pyInStr "manager" name_lower || jvEqInt window_index 0 then
    "project-manager"
  else if pyInStr "qa" name_lower || pyInStr "test" name_lower || jvEqInt window_index 1 then
    "qa-engineer"
  else if pyInStr "dev" name_lower || pyInStr "code" name_lower || jvEqInt window_index 2 then
    "developer"
  else "developer"

/-- `TmuxOrchestrator._generate_status_response`: a fixed message per
role, stamped with the wall-clock time. -/
def TmuxOrchestrator.generate_status_response (role hms : String) : String :=
  if role == "project-manager" then
    "[" ++ hms ++ "] PROJECT STATUS: Coordinating team activities. Monitoring QA and development progress. Ready to assist with project management tasks."
  else if role == "qa-engineer" then
    "[" ++ hms ++ "] QA STATUS: Systems operational. Ready to run tests and validate code quality. Awaiting code submissions for testing."
  else if role == "developer" then
    "[" ++ hms ++ "] DEVELOPER STATUS: Ready for development tasks. Environment configured. Awaiting project requirements or code assignments."
  else
    "[" ++ hms ++ "] AGENT STATUS: Online and ready. Waiting for task assignments."

/-- `TmuxOrchestrator.handle_status_request`: locates the target window
in a fresh session snapshot (returning `False` when absent), cancels
current input with an unchecked `C-c`, then sends an echo of the
role-based status line (`False` on `CalledProcessError` anywhere in the
body). -/
def TmuxOrchestrator.handle_status_request (o : Orch) (session_name window_index request : JVal)
    (w : World) : Out Bool :=
  Out.catchCpe
    (Out.bind (TmuxOrchestrator.get_tmux_sessions o w) (fun sessions =>
      match sessions.find? (fun s => jvEqStr session_name s.name) with
      | none => Out.pure false
      | some s =>
          match s.windows.find? (fun win => jvEqInt window_index win.window_index) with
          | none => Out.pure false
          | some win =>
              let role := TmuxOrchestrator.detect_window_role win.window_name window_index
              let status_response := TmuxOrchestrator.generate_status_response role w.now_hms
              let target := pyStr session_name ++ ":" ++ pyStr window_index
              Out.bind (runProcNoCheck w (sendKeysCmd target "C-c")) (fun _ =>
                Out.bind (runProc w ["tmux", "send-keys", "-t", target,
                    "echo \x27" ++ status_response ++ "\x27", "C-m"]) (fun _ =>
                  Out.pure true))))
    (fun _ _ _ _ => false)

/-- Python `x[k]` dict item access used by the snapshot renderer. -/
def pyGetItem (j : JVal) (k : String) : Except PyErr JVal :=
  match j with
  | .obj kvs => if pyHasKey kvs k then .ok (pyGet kvs k .null) else .error (.other "KeyError")
  | _ => .error (.other "TypeError: object is not subscriptable")

/-- Python `k in x` membership used by the snapshot renderer: key test
on dicts, substring test on strings, element equality on lists, and
`TypeError` on `None` and numbers. -/
def pyContains (j : JVal) (k : String) : Except PyErr Bool :=
  match j with
  | .obj kvs => .ok (pyHasKey kvs k)
  | .str s => .ok (pyInStr k s)
  | .arr xs => .ok (xs.any (fun x => jvEqStr x k))
  | _ => .error (.other "TypeError: argument is not iterable")

/-- Python `x.split` on a value expected to be a string. -/
def pySplitNl (j : JVal) : Except PyErr (List String) :=
  match j with
  | .str c => .ok (pySplitC c '\n')
  | _ => .error (.other "AttributeError: object has no attribute split")

/-- The fifty-character separator of the snapshot header. -/
def eqRule : String := String.mk (List.replicate 50 '=')

/-- The thirty-character separator under each session header. -/
def dashRule : String := String.mk (List.replicate 30 '-')

/-- The per-window block of `create_monitoring_snapshot`: header line
with activity marker, then up to the last ten non-blank content lines
when the info record carries content (`in` on a `None` info raises
`TypeError`). -/
def snapshotWindow (wv : JVal) : Except PyErr String :=
  match pyGetItem wv "index" with
  | .error e => .error e
  | .ok idx =>
  match pyGetItem wv "name" with
  | .error e => .error e
  | .ok nm =>
  match pyGetItem wv "active" with
  | .error e => .error e
  | .ok act =>
  match pyGetItem wv "info" with
  | .error e => .error e
  | .ok info =>
  let head := "  Window " ++ pyStr idx ++ ": " ++ pyStr nm ++
    (if jvTruthy act then " (ACTIVE)" else "") ++ "\n"
  match pyContains info "content" with
  | .error e => .error e
  | .ok hasContent =>
  if hasContent then
    match pyGetItem info "content" with
    | .error e => .error e
    | .ok c =>
    match pySplitNl c with
    | .error e => .error e
    | .ok lines =>
      let recent := if lines.length > 10 then lines.drop (lines.length - 10) else lines
      .ok (head ++ "    Recent output:\n" ++
        String.join (recent.map (fun l => if pyStrip l != "" then "    | " ++ l ++ "\n" else "")) ++
        "\n")
  else .ok (head ++ "\n")

/-- The window loop of `create_monitoring_snapshot`. -/
def snapshotWindows : List JVal → Except PyErr String
  | [] => .ok ""
  | x :: xs =>
      match snapshotWindow x with
      | .error e => .error e
      | .ok a =>
          match snapshotWindows xs with
          | .error e => .error e
          | .ok b => .ok (a ++ b)

/-- The per-session block of `create_monitoring_snapshot`. -/
def snapshotSession (sv : JVal) : Except PyErr String :=
  match pyGetItem sv "name" with
  | .error e => .error e
  | .ok nm =>
  match pyGetItem sv "attached" with
  | .error e => .error e
  | .ok att =>
  match pyGetItem sv "windows" with
  | .error e => .error e
  | .ok wins =>
  let head := "Session: " ++ pyStr nm ++ " (" ++
    (if jvTruthy att then "ATTACHED" else "DETACHED") ++ ")\n" ++ dashRule ++ "\n"
  match wins with
  | .arr xs =>
      match snapshotWindows xs with
      | .error e => .error e
      | .ok body => .ok (head ++ body)
  | _ => .error (.other "TypeError: argument is not iterable")

/-- The session loop of `create_monitoring_snapshot`. -/
def snapshotSessions : List JVal → Except PyErr String
  | [] => .ok ""
  | x :: xs =>
      match snapshotSession x with
      | .error e => .error e
      | .ok a =>
          match snapshotSessions xs with
          | .error e => .error e
          | .ok b => .ok (a ++ b)

/-- `TmuxOrchestrator.create_monitoring_snapshot`: the human-readable
rendering of `get_all_windows_status`. -/
def TmuxOrchestrator.create_monitoring_snapshot (o : Orch) (w : World) : Out String :=
  Out.bind (TmuxOrchestrator.get_all_windows_status o w) (fun status =>
    Out.liftE (
      match pyGetItem status "timestamp" with
      | .error e => .error e
      | .ok ts =>
      match pyGetItem status "sessions" with
      | .error e => .error e
      | .ok sess =>
      let head := "Tmux Monitoring Snapshot - " ++ pyStr ts ++ "\n" ++ eqRule ++ "\n\n"
      match sess with
      | .arr xs =>
          match snapshotSessions xs with
          | .error e => .error e
          | .ok body => .ok (head ++ body)
      | _ => .error (.other "TypeError: argument is not iterable")))

/-- `PersistentTmuxWrapper.__init__`: a fresh orchestrator with
interactive confirmations disabled. -/
def PersistentTmuxWrapper.orchestrator : Orch :=
  { TmuxOrchestrator.new with safety_mode := false }

/-- Serialisation of a window record inside the `get_tmux_sessions`
response assembly of `handle_request`. -/
def windowToJson (win : TmuxWindow) : JVal :=
  .obj [("sessionName", .str win.session_name), ("windowIndex", .int win.window_index),
    ("windowName", .str win.window_name), ("active", .bool win.active)]

/-- Serialisation of a session record inside the `get_tmux_sessions`
response assembly of `handle_request`. -/
def sessionToJson (s : TmuxSession) : JVal :=
  .obj [("name", .str s.name), ("attached", .bool s.attached),
    ("windows", .arr (s.windows.map windowToJson))]

/-- The method-dispatch body of `handle_request` (the contents of its
`try` block after `method`, `args` and `id` are read): each branch
validates arity, extracts positional arguments, and invokes one
orchestrator operation; an unknown method raises `ValueError`. -/
def PersistentTmuxWrapper.dispatch (o : Orch) (kvs : List (String × JVal)) (w : World) : Out JVal :=
  let method := pyGet kvs "method" .null
  let args := pyGet kvs "args" (.arr [])
  if jvEqStr method "ping" then Out.pure (.str "pong")
  else if jvEqStr method "get_tmux_sessions" then
    Out.bind (TmuxOrchestrator.get_tmux_sessions o w) (fun sessions =>
      Out.pure (.arr (sessions.map sessionToJson)))
  else if jvEqStr method "capture_window_content" then
    Out.bind (Out.liftE (pyLen args)) (fun n =>
      if n < 2 then Out.raise (.other "Missing arguments for capture_window_content")
      else
        Out.bind (Out.liftE (pyIndex args 0)) (fun a0 =>
        Out.bind (Out.liftE (pyIndex args 1)) (fun a1 =>
        Out.bind (if n > 2 then Out.liftE (pyIndex args 2) else Out.pure (.int 50)) (fun nl =>
        Out.bind (TmuxOrchestrator.capture_window_content o a0 a1 nl w) (fun s =>
          Out.pure (.str s))))))
  else if jvEqStr method "get_window_info" then
    Out.bind (Out.liftE (pyLen args)) (fun n =>
      if n < 2 then Out.raise (.other "Missing arguments for get_window_info")
      else
        Out.bind (Out.liftE (pyIndex args 0)) (fun a0 =>
        Out.bind (Out.liftE (pyIndex args 1)) (fun a1 =>
        TmuxOrchestrator.get_window_info o a0 a1 w)))
  else if jvEqStr method "send_keys_to_window" then
    Out.bind (Out.liftE (pyLen args)) (fun n =>
      if n < 3 then Out.raise (.other "Missing arguments for send_keys_to_window")
      else
        Out.bind (Out.liftE (pyIndex args 0)) (fun a0 =>
        Out.bind (Out.liftE (pyIndex args 1)) (fun a1 =>
        Out.bind (Out.liftE (pyIndex args 2)) (fun a2 =>
        Out.bind (if n > 3 then Out.liftE (pyIndex args 3) else Out.pure (.bool false)) (fun a3 =>
        Out.bind (TmuxOrchestrator.send_keys_to_window o a0 a1 a2 a3 w) (fun b =>
          Out.pure (.bool b)))))))
  else if jvEqStr method "send_command_to_window" then
    Out.bind (Out.liftE (pyLen args)) (fun n =>
      if n < 3 then Out.raise (.other "Missing arguments for send_command_to_window")
      else
        Out.bind (Out.liftE (pyIndex args 0)) (fun a0 =>
        Out.bind (Out.liftE (pyIndex args 1)) (fun a1 =>
        Out.bind (Out.liftE (pyIndex args 2)) (fun a2 =>
        Out.bind (if n > 3 then Out.liftE (pyIndex args 3) else Out.pure (.bool false)) (fun a3 =>
        Out.bind
          (match a2 with
           | .str c =>
               if pyStartsWith c "STATUS REQUEST:" then
                 TmuxOrchestrator.handle_status_request o a0 a1 a2 w
               else
                 TmuxOrchestrator.send_command_to_window o a0 a1 a2 a3 w
           | _ => Out.raise (.other "AttributeError: object has no attribute startswith"))
          (fun b => Out.pure (.bool b)))))))
  else if jvEqStr method "get_all_windows_status" then
    TmuxOrchestrator.get_all_windows_status o w
  else if jvEqStr method "find_window_by_name" then
    Out.bind (Out.liftE (pyLen args)) (fun n =>
      if n < 1 then Out.raise (.other "Missing window name argument")
      else
        Out.bind (Out.liftE (pyIndex args 0)) (fun a0 =>
        TmuxOrchestrator.find_window_by_name o a0 w))
  else if jvEqStr method "create_monitoring_snapshot" then
    Out.bind (TmuxOrchestrator.create_monitoring_snapshot o w) (fun s =>
      Out.pure (.str s))
  else Out.raise (.other ("Unknown method: " ++ pyStr method))

/-- Response assembly of `handle_request`: the success dict pairs the
echoed identifier with `result`; a caught exception pairs it with
`error` carrying `str(e)`. Exactly one of the two keys is present. -/
def mkResp (idv : JVal) : Except PyErr JVal → JVal
  | .ok r => .obj [("id", idv), ("result", r)]
  | .error e => .obj [("id", idv), ("error", .str (pyErrStr e))]

/-- `PersistentTmuxWrapper.handle_request`: for an object request every
exception raised by dispatch is caught and becomes an error response
echoing the request identifier; for a non-object request the identifier
lookup inside the `except` handler raises again, so the exception
propagates to the caller. -/
def PersistentTmuxWrapper.handle_request (o : Orch) (request : JVal) (w : World) : Out JVal :=
  match request with
  | .obj kvs =>
      let d := PersistentTmuxWrapper.dispatch o kvs w
      ⟨.ok (mkResp (pyGet kvs "id" .null) d.res), d.calls, d.prompts⟩
  | _ => ⟨.error (.other "AttributeError: object has no attribute get"), [], 0⟩

/-- One line read by `run_persistent`, classified by what
`line.strip()` and `json.loads` do to it: a blank line (skipped), a
line `json.loads` rejects (with the decode error message), or a decoded
JSON request value. -/
inductive InLine where
  | blank : InLine
  | malformed (msg : String) : InLine
  | request (j : JVal) : InLine

/-- `PersistentTmuxWrapper.run_persistent`: the read-eval-respond loop
over standard input until end-of-stream. Returns the emitted response
lines in order together with the total number of confirmation prompts
issued. Malformed JSON yields one error response with a `None`
identifier; an exception escaping `handle_request` yields one error
response with a `None` identifier; the loop then continues either
way. -/
def PersistentTmuxWrapper.run_persistent (w : World) : List InLine → List JVal × Nat
  | [] => ([], 0)
  | .blank :: rest => PersistentTmuxWrapper.run_persistent w rest
  | .malformed m :: rest =>
      let t := PersistentTmuxWrapper.run_persistent w rest
      (JVal.obj [("id", .null), ("error", .str ("Invalid JSON request: " ++ m))] :: t.1, t.2)
  | .request j :: rest =>
      let d := PersistentTmuxWrapper.handle_request PersistentTmuxWrapper.orchestrator j w
      let t := PersistentTmuxWrapper.run_persistent w rest
      ((match d.res with
        | .ok resp => resp
        | .error e =>
            JVal.obj [("id", .null), ("error", .str ("Request handling error: " ++ pyErrStr e))])
        :: t.1,
       d.prompts + t.2)

/-- `PersistentTmuxWrapper.run_legacy`: builds one synthetic request
with identifier `legacy`, feeds it through `handle_request`, and prints
either the bare error object (exiting 1) or the bare result (exiting
0). -/
def PersistentTmuxWrapper.run_legacy (method : String) (margs : List JVal) (w : World) :
    Out (JVal × Int) :=
  let req : JVal := .obj [("id", .str "legacy"), ("method", .str method), ("args", .arr margs)]
  let d := PersistentTmuxWrapper.handle_request PersistentTmuxWrapper.orchestrator req w
  match d.res with
  | .ok resp =>
      match resp with
      | .obj kvs =>
          if pyHasKey kvs "error" then
            ⟨.ok (JVal.obj [("error", pyGet kvs "error" .null)], 1), d.calls, d.prompts⟩
          else
            ⟨.ok (pyGet kvs "result" .null, 0), d.calls, d.prompts⟩
      | _ => ⟨.ok (resp, 0), d.calls, d.prompts⟩
  | .error e => ⟨.error e, d.calls, d.prompts⟩

/-- Sequencing after a successful fragment concatenates effects. -/
theorem Out.bind_ok (x : Out α) (f : α → Out β) (a : α) (h : x.res = .ok a) :
    Out.bind x f = ⟨(f a).res, x.calls ++ (f a).calls, x.prompts + (f a).prompts⟩ := by
  unfold Out.bind
  rw [h]

/-- Sequencing after a raising fragment keeps its exception and effects. -/
theorem Out.bind_err (x : Out α) (f : α → Out β) (e : PyErr) (h : x.res = .error e) :
    Out.bind x f = ⟨.error e, x.calls, x.prompts⟩ := by
  unfold Out.bind
  rw [h]

/-- A successful fragment passes through `catchCpe` unchanged. -/
theorem Out.catchCpe_ok (x : Out α) (h : List String → Int → String → String → α) (a : α)
    (hx : x.res = .ok a) : Out.catchCpe x h = x := by
  obtain ⟨r, c, p⟩ := x
  simp only at hx
  subst hx
  rfl

/-- A `CalledProcessError` is converted by `catchCpe` into the handler
value, keeping the effects performed so far. -/
theorem Out.catchCpe_cpe (x : Out α) (h : List String → Int → String → String → α)
    (cmd : List String) (rc : Int) (so se : String)
    (hx : x.res = .error (.cpe cmd rc so se)) :
    Out.catchCpe x h = ⟨.ok (h cmd rc so se), x.calls, x.prompts⟩ := by
  obtain ⟨r, c, p⟩ := x
  simp only at hx
  subst hx
  rfl

/-- Any other exception passes through `catchCpe` unchanged. -/
theorem Out.catchCpe_other (x : Out α) (h : List String → Int → String → String → α)
    (m : String) (hx : x.res = .error (.other m)) : Out.catchCpe x h = x := by
  obtain ⟨r, c, p⟩ := x
  simp only at hx
  subst hx
  rfl

/-- `catchCpe` never changes the number of prompts. -/
theorem Out.catchCpe_prompts (x : Out α) (h : List String → Int → String → String → α) :
    (Out.catchCpe x h).prompts = x.prompts := by
  unfold Out.catchCpe
  rcases hr : x.res with e | a
  · cases e <;> rfl
  · rfl

/-- Sequencing two prompt-free fragments is prompt-free. -/
theorem Out.bind_prompts_zero (x : Out α) (f : α → Out β) (hx : x.prompts = 0)
    (hf : ∀ a, (f a).prompts = 0) : (Out.bind x f).prompts = 0 := by
  unfold Out.bind
  rcases hr : x.res with e | a
  · exact hx
  · simp [hx, hf a]

/-- External invocations issue no prompt. -/
theorem runProc_prompts (w : World) (cmd : List String) : (runProc w cmd).prompts = 0 := by
  unfold runProc
  cases w.proc cmd <;> rfl

/-- Unchecked external invocations issue no prompt. -/
theorem runProcNoCheck_prompts (w : World) (cmd : List String) :
    (runProcNoCheck w cmd).prompts = 0 := by
  unfold runProcNoCheck
  cases w.proc cmd <;> rfl

/-- The spec-side predicate for in-band failure text: the string begins
with the characters `Error`. -/
def beginsWithError (s : String) : Bool := "Error".data.isPrefixOf s.data

/-- Extending an in-band error string on the right keeps it an in-band
error string. -/
theorem beginsWithError_append (a b : String) (h : beginsWithError a = true) :
    beginsWithError (a ++ b) = true := by
  unfold beginsWithError at h ⊢
  rw [List.isPrefixOf_iff_prefix] at h ⊢
  rw [String.data_append]
  exact h.trans (List.prefix_append _ _)

/-- The session loop issues no prompt. -/
theorem sessionsFromLines_prompts (w : World) (ls : List String) :
    (sessionsFromLines w ls).prompts = 0 := by
  induction ls with
  | nil => rfl
  | cons l rest ih =>
      unfold sessionsFromLines
      split
      · exact ih
      · split
        · exact Out.bind_prompts_zero _ _ (runProc_prompts _ _) (fun _ =>
            Out.bind_prompts_zero _ _ rfl (fun _ =>
              Out.bind_prompts_zero _ _ ih (fun _ => rfl)))
        · rfl

/-- `get_tmux_sessions` issues no prompt. -/
theorem get_tmux_sessions_prompts (o : Orch) (w : World) :
    (TmuxOrchestrator.get_tmux_sessions o w).prompts = 0 := by
  unfold TmuxOrchestrator.get_tmux_sessions
  rw [Out.catchCpe_prompts]
  exact Out.bind_prompts_zero _ _ (runProc_prompts _ _) (fun _ => sessionsFromLines_prompts _ _)

/-- `capture_window_content` issues no prompt. -/
theorem capture_window_content_prompts (o : Orch) (a b c : JVal) (w : World) :
    (TmuxOrchestrator.capture_window_content o a b c w).prompts = 0 := by
  unfold TmuxOrchestrator.capture_window_content
  split
  · rfl
  split
  · rfl
  split
  · rfl
  rw [Out.catchCpe_prompts]
  exact Out.bind_prompts_zero _ _ (runProc_prompts _ _) (fun _ =>
    Out.bind_prompts_zero _ _ (runProc_prompts _ _) (fun _ => rfl))

/-- `get_window_info` issues no prompt. -/
theorem get_window_info_prompts (o : Orch) (a b : JVal) (w : World) :
    (TmuxOrchestrator.get_window_info o a b w).prompts = 0 := by
  unfold TmuxOrchestrator.get_window_info
  rw [Out.catchCpe_prompts]
  refine Out.bind_prompts_zero _ _ (runProc_prompts _ _) (fun r => ?_)
  dsimp only
  split
  · refine Out.bind_prompts_zero _ _ rfl (fun p0 => ?_)
    refine Out.bind_prompts_zero _ _ rfl (fun p1 => ?_)
    refine Out.bind_prompts_zero _ _ rfl (fun p2 => ?_)
    refine Out.bind_prompts_zero _ _ rfl (fun panes => ?_)
    refine Out.bind_prompts_zero _ _ rfl (fun p3 => ?_)
    exact Out.bind_prompts_zero _ _ (capture_window_content_prompts o a b _ w) (fun _ => rfl)
  · rfl

/-- With `safety_mode` off, `send_keys_to_window` issues no prompt. -/
theorem send_keys_to_window_prompts (o : Orch) (a b c d : JVal) (w : World)
    (h : o.safety_mode = false) :
    (TmuxOrchestrator.send_keys_to_window o a b c d w).prompts = 0 := by
  unfold TmuxOrchestrator.send_keys_to_window
  split
  · rfl
  split
  · rfl
  refine Out.bind_prompts_zero _ _ ?_ (fun okT => ?_)
  · rw [Out.catchCpe_prompts]
    exact Out.bind_prompts_zero _ _ (runProc_prompts _ _) (fun _ => rfl)
  split
  · rfl
  refine Out.bind_prompts_zero _ _ ?_ (fun proceed => ?_)
  · simp [h, Out.pure]
  split
  · rfl
  split
  · rw [Out.catchCpe_prompts]
    exact Out.bind_prompts_zero _ _ (runProc_prompts _ _) (fun _ => rfl)
  · rfl

/-- With `safety_mode` off, `send_command_to_window` issues no prompt. -/
theorem send_command_to_window_prompts (o : Orch) (a b c d : JVal) (w : World)
    (h : o.safety_mode = false) :
    (TmuxOrchestrator.send_command_to_window o a b c d w).prompts = 0 := by
  unfold TmuxOrchestrator.send_command_to_window
  split
  · rfl
  refine Out.bind_prompts_zero _ _ (send_keys_to_window_prompts o a b c d w h) (fun ok1 => ?_)
  split
  · rfl
  rw [Out.catchCpe_prompts]
  exact Out.bind_prompts_zero _ _ (runProc_prompts _ _) (fun _ => rfl)

/-- `handle_status_request` issues no prompt. -/
theorem handle_status_request_prompts (o : Orch) (a b c : JVal) (w : World) :
    (TmuxOrchestrator.handle_status_request o a b c w).prompts = 0 := by
  unfold TmuxOrchestrator.handle_status_request
  rw [Out.catchCpe_prompts]
  refine Out.bind_prompts_zero _ _ (get_tmux_sessions_prompts o w) (fun sessions => ?_)
  split
  · rfl
  split
  · rfl
  exact Out.bind_prompts_zero _ _ (runProcNoCheck_prompts _ _) (fun _ =>
    Out.bind_prompts_zero _ _ (runProc_prompts _ _) (fun _ => rfl))

/-- The per-session window status loop issues no prompt. -/
theorem windowsStatus_prompts (o : Orch) (w : World) (sname : String) (ws : List TmuxWindow) :
    (windowsStatus o w sname ws).prompts = 0 := by
  induction ws with
  | nil => rfl
  | cons win rest ih =>
      exact Out.bind_prompts_zero _ _ (get_window_info_prompts o _ _ w) (fun _ =>
        Out.bind_prompts_zero _ _ ih (fun _ => rfl))

/-- The session status loop issues no prompt. -/
theorem sessionsStatus_prompts (o : Orch) (w : World) (ss : List TmuxSession) :
    (sessionsStatus o w ss).prompts = 0 := by
  induction ss with
  | nil => rfl
  | cons s rest ih =>
      exact Out.bind_prompts_zero _ _ (windowsStatus_prompts o w s.name s.windows) (fun _ =>
        Out.bind_prompts_zero _ _ ih (fun _ => rfl))

/-- `get_all_windows_status` issues no prompt. -/
theorem get_all_windows_status_prompts (o : Orch) (w : World) :
    (TmuxOrchestrator.get_all_windows_status o w).prompts = 0 := by
  exact Out.bind_prompts_zero _ _ (get_tmux_sessions_prompts o w) (fun sessions =>
    Out.bind_prompts_zero _ _ (sessionsStatus_prompts o w sessions) (fun _ => rfl))

/-- The window matching loop issues no prompt. -/
theorem findMatchesW_prompts (n : JVal) (sname : String) (ws : List TmuxWindow) :
    (findMatchesW n sname ws).prompts = 0 := by
  induction ws with
  | nil => rfl
  | cons win rest ih =>
      unfold findMatchesW
      split
      · exact Out.bind_prompts_zero _ _ ih (fun _ => rfl)
      · rfl

/-- The session matching loop issues no prompt. -/
theorem findMatchesS_prompts (n : JVal) (ss : List TmuxSession) :
    (findMatchesS n ss).prompts = 0 := by
  induction ss with
  | nil => rfl
  | cons s rest ih =>
      exact Out.bind_prompts_zero _ _ (findMatchesW_prompts n s.name s.windows) (fun _ =>
        Out.bind_prompts_zero _ _ ih (fun _ => rfl))

/-- `find_window_by_name` issues no prompt. -/
theorem find_window_by_name_prompts (o : Orch) (n : JVal) (w : World) :
    (TmuxOrchestrator.find_window_by_name o n w).prompts = 0 := by
  exact Out.bind_prompts_zero _ _ (get_tmux_sessions_prompts o w) (fun sessions =>
    Out.bind_prompts_zero _ _ (findMatchesS_prompts n sessions) (fun _ => rfl))

/-- `create_monitoring_snapshot` issues no prompt. -/
theorem create_monitoring_snapshot_prompts (o : Orch) (w : World) :
    (TmuxOrchestrator.create_monitoring_snapshot o w).prompts = 0 := by
  exact Out.bind_prompts_zero _ _ (get_all_windows_status_prompts o w) (fun _ => rfl)

/-- With `safety_mode` off, the dispatcher issues no prompt on any
method. -/
theorem dispatch_prompts (o : Orch) (kvs : List (String × JVal)) (w : World)
    (h : o.safety_mode = false) :
    (PersistentTmuxWrapper.dispatch o kvs w).prompts = 0 := by
  unfold PersistentTmuxWrapper.dispatch
  dsimp only
  split
  · rfl
  split
  · exact Out.bind_prompts_zero _ _ (get_tmux_sessions_prompts o w) (fun _ => rfl)
  split
  · refine Out.bind_prompts_zero _ _ rfl (fun n => ?_)
    split
    · rfl
    refine Out.bind_prompts_zero _ _ rfl (fun a0 => ?_)
    refine Out.bind_prompts_zero _ _ rfl (fun a1 => ?_)
    refine Out.bind_prompts_zero _ _ ?_ (fun nl => ?_)
    · split <;> rfl
    exact Out.bind_prompts_zero _ _ (capture_window_content_prompts o a0 a1 nl w) (fun _ => rfl)
  split
  · refine Out.bind_prompts_zero _ _ rfl (fun n => ?_)
    split
    · rfl
    refine Out.bind_prompts_zero _ _ rfl (fun a0 => ?_)
    refine Out.bind_prompts_zero _ _ rfl (fun a1 => ?_)
    exact get_window_info_prompts o a0 a1 w
  split
  · refine Out.bind_prompts_zero _ _ rfl (fun n => ?_)
    split
    · rfl
    refine Out.bind_prompts_zero _ _ rfl (fun a0 => ?_)
    refine Out.bind_prompts_zero _ _ rfl (fun a1 => ?_)
    refine Out.bind_prompts_zero _ _ rfl (fun a2 => ?_)
    refine Out.bind_prompts_zero _ _ ?_ (fun a3 => ?_)
    · split <;> rfl
    exact Out.bind_prompts_zero _ _ (send_keys_to_window_prompts o a0 a1 a2 a3 w h) (fun _ => rfl)
  split
  · refine Out.bind_prompts_zero _ _ rfl (fun n => ?_)
    split
    · rfl
    refine Out.bind_prompts_zero _ _ rfl (fun a0 => ?_)
    refine Out.bind_prompts_zero _ _ rfl (fun a1 => ?_)
    refine Out.bind_prompts_zero _ _ rfl (fun a2 => ?_)
    refine Out.bind_prompts_zero _ _ ?_ (fun a3 => ?_)
    · split <;> rfl
    refine Out.bind_prompts_zero _ _ ?_ (fun b => rfl)
    split
    · split
      · exact handle_status_request_prompts o a0 a1 _ w
      · exact send_command_to_window_prompts o a0 a1 _ a3 w h
    · rfl
  split
  · exact get_all_windows_status_prompts o w
  split
  · refine Out.bind_prompts_zero _ _ rfl (fun n => ?_)
    split
    · rfl
    refine Out.bind_prompts_zero _ _ rfl (fun a0 => ?_)
    exact find_window_by_name_prompts o a0 w
  split
  · exact Out.bind_prompts_zero _ _ (create_monitoring_snapshot_prompts o w) (fun _ => rfl)
  · rfl

/-- With `safety_mode` off, `handle_request` issues no prompt. -/
theorem handle_request_prompts (o : Orch) (req : JVal) (w : World)
    (h : o.safety_mode = false) :
    (PersistentTmuxWrapper.handle_request o req w).prompts = 0 := by
  unfold PersistentTmuxWrapper.handle_request
  cases req with
  | obj kvs => exact dispatch_prompts o kvs w h
  | null => rfl
  | bool b => rfl
  | int n => rfl
  | str s => rfl
  | arr xs => rfl

/-- The response assembled for an object request always succeeds and
wraps the dispatch outcome under the echoed identifier. -/
theorem handle_request_obj_res (o : Orch) (kvs : List (String × JVal)) (w : World) :
    (PersistentTmuxWrapper.handle_request o (.obj kvs) w).res
      = .ok (mkResp (pyGet kvs "id" .null) (PersistentTmuxWrapper.dispatch o kvs w).res) := rfl

/-- The identifier field of a request or response object (`None` when
the value is not an object or carries no identifier, matching
`request.get` / the emitted `id` key). -/
def rpcId : JVal → JVal
  | .obj kvs => pyGet kvs "id" .null
  | _ => .null

/-- Both response shapes echo the identifier they were built with. -/
theorem rpcId_mkResp (idv : JVal) (r : Except PyErr JVal) : rpcId (mkResp idv r) = idv := by
  cases r <;> rfl

/-- The persistent loop issues no prompt on any input. -/
theorem run_persistent_prompts (w : World) (lines : List InLine) :
    (PersistentTmuxWrapper.run_persistent w lines).2 = 0 := by
  induction lines with
  | nil => rfl
  | cons l rest ih =>
      cases l with
      | blank => exact ih
      | malformed m => exact ih
      | request j =>
          show (PersistentTmuxWrapper.handle_request PersistentTmuxWrapper.orchestrator j w).prompts
            + (PersistentTmuxWrapper.run_persistent w rest).2 = 0
          rw [handle_request_prompts PersistentTmuxWrapper.orchestrator j w rfl, ih]

/-- The legacy single-shot entry issues no prompt on any invocation. -/
theorem run_legacy_prompts (m : String) (margs : List JVal) (w : World) :
    (PersistentTmuxWrapper.run_legacy m margs w).prompts = 0 := by
  unfold PersistentTmuxWrapper.run_legacy
  dsimp only
  have hd := handle_request_prompts PersistentTmuxWrapper.orchestrator
    (.obj [("id", .str "legacy"), ("method", .str m), ("args", .arr margs)]) w rfl
  split
  · split
    · split <;> exact hd
    all_goals exact hd
  · exact hd

/-- C1: for every sequence of non-blank, well-formed JSON request lines
(decoded request objects), the persistent loop emits exactly one
response line per request, in arrival order, and each response carries
the same identifier as its request. -/
theorem C1_one_response_per_request_in_order (w : World) (reqs : List JVal)
    (h : ∀ r ∈ reqs, ∃ kvs, r = JVal.obj kvs) :
    (PersistentTmuxWrapper.run_persistent w (reqs.map InLine.request)).1.length
        = reqs.length ∧
    (PersistentTmuxWrapper.run_persistent w (reqs.map InLine.request)).1.map rpcId
        = reqs.map rpcId := by
  have hmap : (PersistentTmuxWrapper.run_persistent w (reqs.map InLine.request)).1.map rpcId
      = reqs.map rpcId := by
    induction reqs with
    | nil => rfl
    | cons r rest ih =>
        obtain ⟨kvs, rfl⟩ := h r (List.mem_cons_self _ _)
        have hrest := ih (fun x hx => h x (List.mem_cons_of_mem _ hx))
        simp only [List.map_cons]
        show rpcId (match (PersistentTmuxWrapper.handle_request
            PersistentTmuxWrapper.orchestrator (.obj kvs) w).res with
          | .ok resp => resp
          | .error e => JVal.obj [("id", .null),
              ("error", .str ("Request handling error: " ++ pyErrStr e))])
            :: (PersistentTmuxWrapper.run_persistent w (rest.map InLine.request)).1.map rpcId
          = rpcId (.obj kvs) :: rest.map rpcId
        rw [handle_request_obj_res, hrest, rpcId_mkResp]
        rfl
  refine ⟨?_, hmap⟩
  have := congrArg List.length hmap
  simpa using this

/-- C3: every line the loop cannot parse as JSON yields exactly one
error response whose identifier is `None`, and the loop then keeps
processing the remaining input unchanged. -/
theorem C3_malformed_line_one_error_response (w : World) (m : String) (rest : List InLine) :
    PersistentTmuxWrapper.run_persistent w (.malformed m :: rest)
      = (JVal.obj [("id", .null), ("error", .str ("Invalid JSON request: " ++ m))]
          :: (PersistentTmuxWrapper.run_persistent w rest).1,
         (PersistentTmuxWrapper.run_persistent w rest).2) := rfl

/-- An environment in which every external command succeeds with empty
output: the interactive preconditions of a confirmation prompt (target
exists, keys non-empty) are all met. -/
def wldC4 : World :=
  { proc := fun _ => ProcRes.ok "" "", now_iso := "", now_hms := "", op_input := "yes" }

/-- C4 counterexample: the legacy single-shot entry also runs on the
wrapper whose constructor disables `safety_mode`, so even a
`send_keys_to_window` invocation with `confirm = true` against an
existing target issues zero confirmation prompts (and succeeds) — the
interactive confirmation mode is not exposed through the legacy entry
either. -/
theorem C4_counterexample_legacy_never_prompts :
    (PersistentTmuxWrapper.run_legacy "send_keys_to_window"
      [.str "s", .int 0, .str "ls", .bool true] wldC4).prompts = 0 ∧
    (PersistentTmuxWrapper.run_legacy "send_keys_to_window"
      [.str "s", .int 0, .str "ls", .bool true] wldC4).res = .ok (.bool true, 0) :=
  ⟨rfl, rfl⟩

/-- C4 (amended): the wrapper construction disables `safety_mode`, so
neither the persistent loop nor the legacy single-shot entry ever
issues an operator confirmation prompt, for any input and environment;
the interactive mode exists only on a directly constructed orchestrator,
whose default `safety_mode` is on. -/
theorem C4_confirmations_disabled_in_both_entries :
    (∀ (w : World) (lines : List InLine),
      (PersistentTmuxWrapper.run_persistent w lines).2 = 0) ∧
    (∀ (m : String) (margs : List JVal) (w : World),
      (PersistentTmuxWrapper.run_legacy m margs w).prompts = 0) ∧
    (TmuxOrchestrator.send_keys_to_window TmuxOrchestrator.new
      (.str "s") (.int 0) (.str "ls") (.bool true) wldC4).prompts = 1 :=
  ⟨fun w lines => run_persistent_prompts w lines,
   fun m margs w => run_legacy_prompts m margs w,
   by decide⟩

/-- An environment whose external process always exits non-zero. -/
def wldC1 : World :=
  { proc := fun _ => ProcRes.err 1 "" "", now_iso := "", now_hms := "", op_input := "" }

/-- C1 witness: a concrete two-request run (a ping and an unknown
method) emits two responses whose identifiers echo the requests in
order. -/
theorem C1_witness :
    (PersistentTmuxWrapper.run_persistent wldC1
      ([JVal.obj [("id", .int 1), ("method", .str "ping")],
        JVal.obj [("id", .str "b"), ("method", .str "nope")]].map InLine.request)).1.length = 2 ∧
    (PersistentTmuxWrapper.run_persistent wldC1
      ([JVal.obj [("id", .int 1), ("method", .str "ping")],
        JVal.obj [("id", .str "b"), ("method", .str "nope")]].map InLine.request)).1.map rpcId
      = [JVal.obj [("id", .int 1), ("method", .str "ping")],
         JVal.obj [("id", .str "b"), ("method", .str "nope")]].map rpcId := by
  have h := C1_one_response_per_request_in_order wldC1
    [JVal.obj [("id", .int 1), ("method", .str "ping")],
     JVal.obj [("id", .str "b"), ("method", .str "nope")]]
    (by
      intro r hr
      rcases List.mem_cons.mp hr with rfl | hr2
      · exact ⟨_, rfl⟩
      rcases List.mem_cons.mp hr2 with rfl | h3
      · exact ⟨_, rfl⟩
      cases h3)
  exact ⟨h.1, h.2⟩

/-- A placeholder environment for validation-only executions. -/
def wldC5 : World :=
  { proc := fun _ => ProcRes.err 1 "" "", now_iso := "", now_hms := "", op_input := "" }

/-- C5: for every line count at most zero, `capture_window_content`
answers with an in-band validation-error string and invokes no external
command at all. -/
theorem C5_nonpositive_count_no_external_call (o : Orch) (session_name window_index : JVal)
    (n : Int) (w : World) (h : n ≤ 0) :
    ∃ msg, TmuxOrchestrator.capture_window_content o session_name window_index (.int n) w
        = ⟨.ok msg, [], 0⟩ ∧ beginsWithError msg = true := by
  unfold TmuxOrchestrator.capture_window_content
  split
  · refine ⟨_, rfl, ?_⟩
    apply beginsWithError_append
    apply beginsWithError_append
    apply beginsWithError_append
    decide
  split
  · next h2 => simp [jvIsInt] at h2
  split
  · exact ⟨_, rfl, by decide⟩
  · next h3 =>
      simp only [jvIntVal] at h3
      exact absurd h h3

/-- C5 witness: a zero line count against a concrete environment makes
no external call and returns the validation error. -/
theorem C5_witness :
    ∃ msg, TmuxOrchestrator.capture_window_content TmuxOrchestrator.new (.str "s") (.int 1)
        (.int 0) wldC5 = ⟨.ok msg, [], 0⟩ ∧ beginsWithError msg = true :=
  C5_nonpositive_count_no_external_call TmuxOrchestrator.new (.str "s") (.int 1) 0 wldC5
    (by decide)

/-- C7: when the first (text) sub-step of `send_command_to_window`
fails in-band, the submit keystroke is never attempted — the overall
outcome (result, external calls, prompts) is exactly the first
sub-step's. -/
theorem C7_first_step_failure_short_circuits (o : Orch)
    (session_name window_index command confirm : JVal) (w : World)
    (cs : List (List String)) (p : Nat)
    (hcmd : jvTruthy command = true)
    (h1 : TmuxOrchestrator.send_keys_to_window o session_name window_index command confirm w
        = ⟨.ok false, cs, p⟩) :
    TmuxOrchestrator.send_command_to_window o session_name window_index command confirm w
      = ⟨.ok false, cs, p⟩ := by
  unfold TmuxOrchestrator.send_command_to_window
  rw [h1]
  simp [hcmd, Out.bind, Out.pure]

/-- An environment with no reachable target: every command exits
non-zero, so the existence check fails. -/
def wldC7 : World :=
  { proc := fun _ => ProcRes.err 1 "" "", now_iso := "", now_hms := "", op_input := "" }

/-- C7 witness: against a concrete environment where the existence
check fails, `send_command_to_window` performs exactly the first
sub-step's single call and returns its failure. -/
theorem C7_witness :
    TmuxOrchestrator.send_command_to_window TmuxOrchestrator.new
      (.str "s") (.int 0) (.str "ls") (.bool false) wldC7
      = ⟨.ok false, [listPanesCmd "s:0"], 0⟩ :=
  C7_first_step_failure_short_circuits TmuxOrchestrator.new
    (.str "s") (.int 0) (.str "ls") (.bool false) wldC7 [listPanesCmd "s:0"] 0
    (by decide) (by rfl)

/-- An environment whose external process always exits non-zero. -/
def wldC2 : World :=
  { proc := fun _ => ProcRes.err 1 "" "", now_iso := "", now_hms := "", op_input := "" }

/-- An environment with no external binary at all. -/
def wldC2abs : World :=
  { proc := fun _ => ProcRes.absent "FileNotFoundError: tmux", now_iso := "", now_hms := "",
    op_input := "" }

/-- An environment where listing sessions succeeds with empty output. -/
def wldC2empty : World :=
  { proc := fun cmd => if cmd = listSessionsCmd then ProcRes.ok "" "" else ProcRes.err 1 "" "",
    now_iso := "", now_hms := "", op_input := "" }

/-- C2 counterexample: when the external process exits non-zero,
`get_tmux_sessions` does not fail — the `except` clause swallows the
`CalledProcessError` and returns the empty session list, exactly the
value an empty multiplexer would produce. -/
theorem C2_counterexample_nonzero_exit_returns_empty :
    TmuxOrchestrator.get_tmux_sessions TmuxOrchestrator.new wldC2
      = ⟨.ok [], [listSessionsCmd], 0⟩ := rfl

/-- C2 (amended): an unreachable external binary raises
(`FileNotFoundError` is not caught, so the failure propagates); a
non-zero exit status is caught and silently yields the empty session
list, indistinguishable from success on an empty multiplexer; empty
output on success yields the empty list, not an error. -/
theorem C2_listSessions_failure_modes (o : Orch) (w : World) :
    (∀ m, w.proc listSessionsCmd = .absent m →
      (TmuxOrchestrator.get_tmux_sessions o w).res = .error (.other m)) ∧
    (∀ rc so se, w.proc listSessionsCmd = .err rc so se →
      TmuxOrchestrator.get_tmux_sessions o w = ⟨.ok [], [listSessionsCmd], 0⟩) ∧
    (∀ se, w.proc listSessionsCmd = .ok "" se →
      TmuxOrchestrator.get_tmux_sessions o w = ⟨.ok [], [listSessionsCmd], 0⟩) := by
  refine ⟨fun m hm => ?_, fun rc so se hn => ?_, fun se hok => ?_⟩
  · have h1 : runProc w listSessionsCmd = ⟨.error (.other m), [listSessionsCmd], 0⟩ := by
      unfold runProc
      rw [hm]
    unfold TmuxOrchestrator.get_tmux_sessions
    rw [h1]
    rfl
  · have h1 : runProc w listSessionsCmd
        = ⟨.error (.cpe listSessionsCmd rc so se), [listSessionsCmd], 0⟩ := by
      unfold runProc
      rw [hn]
    unfold TmuxOrchestrator.get_tmux_sessions
    rw [h1]
    rfl
  · have h1 : runProc w listSessionsCmd = ⟨.ok ("", se), [listSessionsCmd], 0⟩ := by
      unfold runProc
      rw [hok]
    unfold TmuxOrchestrator.get_tmux_sessions
    rw [h1]
    rfl

/-- C2 witness: the three failure modes at concrete environments. -/
theorem C2_witness :
    (TmuxOrchestrator.get_tmux_sessions TmuxOrchestrator.new wldC2abs).res
        = .error (.other "FileNotFoundError: tmux") ∧
    TmuxOrchestrator.get_tmux_sessions TmuxOrchestrator.new wldC2
        = ⟨.ok [], [listSessionsCmd], 0⟩ ∧
    TmuxOrchestrator.get_tmux_sessions TmuxOrchestrator.new wldC2empty
        = ⟨.ok [], [listSessionsCmd], 0⟩ :=
  ⟨(C2_listSessions_failure_modes TmuxOrchestrator.new wldC2abs).1 _ rfl,
   (C2_listSessions_failure_modes TmuxOrchestrator.new wldC2).2.1 1 "" "" rfl,
   (C2_listSessions_failure_modes TmuxOrchestrator.new wldC2empty).2.2 "" rfl⟩

/-- C8: with the configured maximum at its default of 1000, a capture
of 2000 lines is the very same computation as a capture of 1000 lines:
identical result, identical external invocations, identical prompts. -/
theorem C8_clamping_idempotent (o : Orch) (session_name window_index : JVal) (w : World)
    (h : o.max_lines_capture = 1000) :
    TmuxOrchestrator.capture_window_content o session_name window_index (.int 2000) w
      = TmuxOrchestrator.capture_window_content o session_name window_index (.int 1000) w := by
  unfold TmuxOrchestrator.capture_window_content
  rw [h]
  norm_num [jvIsInt, jvIntVal]

/-- C8 witness: the two captures coincide at a concrete environment
(the wrapper orchestrator's maximum is the default 1000). -/
theorem C8_witness :
    TmuxOrchestrator.capture_window_content PersistentTmuxWrapper.orchestrator
        (.str "s") (.int 0) (.int 2000) wldC5
      = TmuxOrchestrator.capture_window_content PersistentTmuxWrapper.orchestrator
        (.str "s") (.int 0) (.int 1000) wldC5 :=
  C8_clamping_idempotent PersistentTmuxWrapper.orchestrator (.str "s") (.int 0) wldC5 rfl

/-- The result of a sequence after a success is the result of its
continuation. -/
theorem Out.bind_res_ok (x : Out α) (f : α → Out β) (a : α) (h : x.res = .ok a) :
    (Out.bind x f).res = (f a).res := by
  unfold Out.bind
  rw [h]

/-- An environment where only the submit keystroke fails. -/
def wldC6 : World :=
  { proc := fun cmd =>
      if cmd = sendKeysCmd "s:0" "C-m" then ProcRes.err 1 "" "" else ProcRes.ok "" "",
    now_iso := "", now_hms := "", op_input := "" }

/-- C6 counterexample: when the text sub-step succeeds and the submit
sub-step exits non-zero, the RPC layer reports a success response whose
result is `false` — no error of any kind is raised, so the partial
failure is not reported as an `AdapterError`. -/
theorem C6_counterexample_partial_failure_is_success_response :
    (PersistentTmuxWrapper.handle_request PersistentTmuxWrapper.orchestrator
      (.obj [("id", .int 3), ("method", .str "send_command_to_window"),
             ("args", .arr [.str "s", .int 0, .str "ls"])]) wldC6).res
      = .ok (.obj [("id", .int 3), ("result", .bool false)]) := rfl

/-- C6 (amended): whenever the text sub-step succeeds and the submit
sub-step exits non-zero, `send_command_to_window` returns `False` —
the same in-band value as a validation failure — rather than raising;
over RPC this surfaces as a success response carrying `false`. -/
theorem C6_second_step_failure_returns_false (o : Orch)
    (session_name window_index command confirm : JVal) (w : World) (rc : Int) (so se : String)
    (h1 : (TmuxOrchestrator.send_keys_to_window o session_name window_index command confirm
        w).res = .ok true)
    (h2 : w.proc (sendKeysCmd (pyStr session_name ++ ":" ++ pyStr window_index) "C-m")
        = .err rc so se) :
    (TmuxOrchestrator.send_command_to_window o session_name window_index command confirm
        w).res = .ok false := by
  unfold TmuxOrchestrator.send_command_to_window
  split
  · rfl
  · rw [Out.bind_res_ok _ _ true h1]
    simp [Out.catchCpe, Out.bind, runProc, h2]

/-- C6 witness: the amended statement at the concrete environment of
the counterexample. -/
theorem C6_witness :
    (TmuxOrchestrator.send_command_to_window PersistentTmuxWrapper.orchestrator
      (.str "s") (.int 0) (.str "ls") (.bool false) wldC6).res = .ok false :=
  C6_second_step_failure_returns_false PersistentTmuxWrapper.orchestrator
    (.str "s") (.int 0) (.str "ls") (.bool false) wldC6 1 "" "" (by rfl) (by rfl)

/-- A successful capture surfaces over RPC as a success response whose
result is the captured string. -/
theorem handle_request_capture_rpc (o : Orch) (idv a0 a1 a2 : JVal) (w : World) (r : String)
    (hc : (TmuxOrchestrator.capture_window_content o a0 a1 a2 w).res = .ok r) :
    (PersistentTmuxWrapper.handle_request o
      (.obj [("id", idv), ("method", .str "capture_window_content"),
             ("args", .arr [a0, a1, a2])]) w).res
      = .ok (.obj [("id", idv), ("result", .str r)]) := by
  rw [handle_request_obj_res]
  have hd : (PersistentTmuxWrapper.dispatch o
      [("id", idv), ("method", .str "capture_window_content"), ("args", .arr [a0, a1, a2])]
        w).res
      = (Out.bind (TmuxOrchestrator.capture_window_content o a0 a1 a2 w)
          (fun s => Out.pure (.str s))).res := rfl
  rw [hd, Out.bind_res_ok _ _ r hc]
  rfl

/-- The in-band error string assembled by the `CalledProcessError`
handler of `capture_window_content`. -/
def captureErrMsg (target : String) (cmd : List String) (rc : Int) (se : String) : String :=
  let base := "Error capturing content from " ++ target ++ ": " ++ cpeMsg cmd rc
  if se != "" then base ++ "\nDetails: " ++ se else base

/-- The handler message always begins with `Error`. -/
theorem beginsWithError_captureErrMsg (target : String) (cmd : List String) (rc : Int)
    (se : String) : beginsWithError (captureErrMsg target cmd rc se) = true := by
  unfold captureErrMsg
  dsimp only
  split
  · repeat apply beginsWithError_append
    decide
  · repeat apply beginsWithError_append
    decide

/-- The post-validation body of `capture_window_content` (existence
check, capture, `CalledProcessError` handler) is total under an
invocable external binary, and a failed existence check yields an
in-band error string. -/
theorem capture_body_res (w : World) (target numstr : String)
    (hw : ∀ cmd m, w.proc cmd ≠ ProcRes.absent m) :
    ∃ r, (Out.catchCpe
        (Out.bind (runProc w (listPanesCmd target)) (fun _ =>
          Out.bind (runProc w (capturePaneCmd target numstr)) (fun r2 => Out.pure r2.1)))
        (fun cmd rc _ se =>
          let base := "Error capturing content from " ++ target ++ ": " ++ cpeMsg cmd rc
          if se != "" then base ++ "\nDetails: " ++ se else base)).res = .ok r ∧
      (∀ rc so se, w.proc (listPanesCmd target) = .err rc so se →
        beginsWithError r = true) := by
  cases hp1 : w.proc (listPanesCmd target) with
  | ok so se =>
      cases hp2 : w.proc (capturePaneCmd target numstr) with
      | ok so2 se2 =>
          refine ⟨so2, ?_, ?_⟩
          · simp only [runProc, hp1, hp2]
            rfl
          · intro rc so3 se3 hp
            cases hp
      | err rc2 so2 se2 =>
          refine ⟨captureErrMsg target (capturePaneCmd target numstr) rc2 se2, ?_, ?_⟩
          · simp only [runProc, hp1, hp2]
            rfl
          · intro rc so3 se3 hp
            cases hp
      | absent m2 => exact (hw _ _ hp2).elim
  | err rc so se =>
      refine ⟨captureErrMsg target (listPanesCmd target) rc se, ?_, ?_⟩
      · simp only [runProc, hp1]
        rfl
      · intro rc2 so3 se3 hp
        exact beginsWithError_captureErrMsg target (listPanesCmd target) rc se
  | absent m => exact (hw _ _ hp1).elim

/-- An environment whose external process always exits non-zero (so it
is invocable). -/
def wldC9 : World :=
  { proc := fun _ => ProcRes.err 1 "" "", now_iso := "", now_hms := "", op_input := "" }

/-- C9 counterexample: a capture request whose line-count argument is a
string makes the comparison `num_lines <= 0` raise `TypeError`, which
the dispatcher converts into an error response — the failure surfaces
in the `error` field, not inside a success result, so
`capture_window_content` is not total over the RPC argument space. -/
theorem C9_counterexample_string_count_error_response :
    (PersistentTmuxWrapper.handle_request PersistentTmuxWrapper.orchestrator
      (.obj [("id", .int 7), ("method", .str "capture_window_content"),
             ("args", .arr [.str "s", .int 0, .str "x"])]) wldC9).res
      = .ok (.obj [("id", .int 7),
          ("error", .str "TypeError: comparison not supported for num_lines")]) := rfl

/-- C9 (amended): restricted to integer line counts and an invocable
external binary, `capture_window_content` is total — it always returns
a string; a non-positive count or a failed existence check yields text
beginning with `Error`; and over RPC the returned string always arrives
in the `result` field of a success response. -/
theorem C9_capture_total_and_inband (o : Orch) (s : String) (wi n : Int) (w : World)
    (hw : ∀ cmd m, w.proc cmd ≠ ProcRes.absent m) :
    ∃ r, (TmuxOrchestrator.capture_window_content o (.str s) (.int wi) (.int n) w).res
          = .ok r ∧
      (n ≤ 0 → beginsWithError r = true) ∧
      (∀ rc so se, w.proc (listPanesCmd (s ++ ":" ++ toString wi)) = .err rc so se →
        beginsWithError r = true) ∧
      (∀ idv, (PersistentTmuxWrapper.handle_request o
          (.obj [("id", idv), ("method", .str "capture_window_content"),
                 ("args", .arr [.str s, .int wi, .int n])]) w).res
        = .ok (.obj [("id", idv), ("result", .str r)])) := by
  suffices h : ∃ r, (TmuxOrchestrator.capture_window_content o (.str s) (.int wi) (.int n)
        w).res = .ok r ∧
      (n ≤ 0 → beginsWithError r = true) ∧
      (∀ rc so se, w.proc (listPanesCmd (s ++ ":" ++ toString wi)) = .err rc so se →
        beginsWithError r = true) by
    obtain ⟨r, hr, h2, h3⟩ := h
    exact ⟨r, hr, h2, h3, fun idv => handle_request_capture_rpc o idv _ _ _ w r hr⟩
  unfold TmuxOrchestrator.capture_window_content
  split
  · refine ⟨_, rfl, fun _ => ?_, fun rc so se _ => ?_⟩
    · repeat apply beginsWithError_append
      decide
    · repeat apply beginsWithError_append
      decide
  split
  · next h2 => simp [jvIsInt] at h2
  split
  · exact ⟨_, rfl, fun _ => by decide, fun rc so se _ => by decide⟩
  · next hpos =>
      simp only [jvIntVal] at hpos
      simp only [pyStr, jvIntVal]
      obtain ⟨r, hres, hpanes⟩ := capture_body_res w (s ++ ":" ++ toString wi)
        (pyStr (if n > o.max_lines_capture then JVal.int o.max_lines_capture else JVal.int n))
        hw
      exact ⟨r, hres, fun hn => absurd hn hpos, hpanes⟩

/-- C9 witness: the amended statement at a concrete environment whose
external process always exits non-zero. -/
theorem C9_witness :
    ∃ r, (TmuxOrchestrator.capture_window_content PersistentTmuxWrapper.orchestrator
          (.str "s") (.int 0) (.int 5) wldC9).res = .ok r ∧
      ((5 : Int) ≤ 0 → beginsWithError r = true) ∧
      (∀ rc so se,
        wldC9.proc (listPanesCmd ("s" ++ ":" ++ toString (0 : Int))) = .err rc so se →
        beginsWithError r = true) ∧
      (∀ idv, (PersistentTmuxWrapper.handle_request PersistentTmuxWrapper.orchestrator
          (.obj [("id", idv), ("method", .str "capture_window_content"),
                 ("args", .arr [.str "s", .int 0, .int 5])]) wldC9).res
        = .ok (.obj [("id", idv), ("result", .str r)])) :=
  C9_capture_total_and_inband PersistentTmuxWrapper.orchestrator "s" 0 5 wldC9
    (fun _ _ h => ProcRes.noConfusion h)

/-- A `display-message` reply that is blank after stripping makes
`get_window_info` fall off the end of its function body: the result is
`None`, not an info record and not an error record. -/
theorem get_window_info_blank (o : Orch) (s : String) (wi : Int) (w : World) (out se : String)
    (h1 : w.proc (displayMsgCmd (s ++ ":" ++ toString wi)) = .ok out se)
    (h2 : pyStrip out = "") :
    TmuxOrchestrator.get_window_info o (.str s) (.int wi) w
      = ⟨.ok JVal.null, [displayMsgCmd (s ++ ":" ++ toString wi)], 0⟩ := by
  unfold TmuxOrchestrator.get_window_info
  simp only [pyStr]
  have hr : runProc w (displayMsgCmd (s ++ ":" ++ toString wi))
      = ⟨.ok (out, se), [displayMsgCmd (s ++ ":" ++ toString wi)], 0⟩ := by
    unfold runProc
    rw [h1]
  rw [hr]
  simp [Out.bind, Out.catchCpe, Out.pure, h2]

/-- C10: a successful `display-message` with whitespace-only output
makes `get_window_info` return `None`, and `get_all_windows_status`
embeds that `None` unchecked as the per-window `info` field of the
snapshot. -/
theorem C10_blank_display_none_embedded (o : Orch) (w : World) (bl se1 se2 se3 : String)
    (h1 : w.proc listSessionsCmd = .ok "main:1" se1)
    (h2 : w.proc (listWindowsCmd "main") = .ok "0:shell:1" se2)
    (h3 : w.proc (displayMsgCmd "main:0") = .ok bl se3)
    (hbl : pyStrip bl = "") :
    TmuxOrchestrator.get_window_info o (.str "main") (.int 0) w
      = ⟨.ok JVal.null, [displayMsgCmd "main:0"], 0⟩ ∧
    (TmuxOrchestrator.get_all_windows_status o w).res
      = .ok (.obj [("timestamp", .str w.now_iso),
          ("sessions", .arr [.obj [("name", .str "main"), ("attached", .bool true),
            ("windows", .arr [.obj [("index", .int 0), ("name", .str "shell"),
              ("active", .bool true), ("info", JVal.null)]])]])]) := by
  have hinfo : TmuxOrchestrator.get_window_info o (.str "main") (.int 0) w
      = ⟨.ok JVal.null, [displayMsgCmd "main:0"], 0⟩ :=
    get_window_info_blank o "main" 0 w bl se3 h3 hbl
  refine ⟨hinfo, ?_⟩
  have hsl : sessionsFromLines w ["main:1"]
      = ⟨.ok [⟨"main", [⟨"main", 0, "shell", true⟩], true⟩], [listWindowsCmd "main"], 0⟩ := by
    show Out.bind (runProc w (listWindowsCmd "main")) (fun wr =>
        Out.bind (Out.liftE (windowsFromLines "main" (pySplitC (pyStrip wr.1) '\n')))
          (fun wins =>
          Out.bind (sessionsFromLines w []) (fun sess =>
            Out.pure (⟨"main", wins, "1" == "1"⟩ :: sess)))) = _
    have hr2 : runProc w (listWindowsCmd "main")
        = ⟨.ok ("0:shell:1", se2), [listWindowsCmd "main"], 0⟩ := by
      unfold runProc
      rw [h2]
    rw [hr2]
    rfl
  have hs : TmuxOrchestrator.get_tmux_sessions o w
      = ⟨.ok [⟨"main", [⟨"main", 0, "shell", true⟩], true⟩],
         [listSessionsCmd, listWindowsCmd "main"], 0⟩ := by
    show Out.catchCpe (Out.bind (runProc w listSessionsCmd) (fun r =>
        sessionsFromLines w (pySplitC (pyStrip r.1) '\n'))) (fun _ _ _ _ => []) = _
    have hr1 : runProc w listSessionsCmd
        = ⟨.ok ("main:1", se1), [listSessionsCmd], 0⟩ := by
      unfold runProc
      rw [h1]
    rw [hr1]
    simp only [Out.bind]
    rw [show pySplitC (pyStrip "main:1") '\n' = ["main:1"] from rfl]
    rw [hsl]
    rfl
  have hws : windowsStatus o w "main" [⟨"main", 0, "shell", true⟩]
      = ⟨.ok [JVal.obj [("index", .int 0), ("name", .str "shell"),
          ("active", .bool true), ("info", JVal.null)]],
         [displayMsgCmd "main:0"], 0⟩ := by
    show Out.bind (TmuxOrchestrator.get_window_info o (.str "main") (.int 0) w) (fun info =>
        Out.bind (windowsStatus o w "main" []) (fun others =>
          Out.pure (JVal.obj [("index", .int 0), ("name", .str "shell"),
            ("active", .bool true), ("info", info)] :: others))) = _
    rw [hinfo]
    rfl
  have hss : sessionsStatus o w [⟨"main", [⟨"main", 0, "shell", true⟩], true⟩]
      = ⟨.ok [JVal.obj [("name", .str "main"), ("attached", .bool true),
          ("windows", .arr [JVal.obj [("index", .int 0), ("name", .str "shell"),
            ("active", .bool true), ("info", JVal.null)]])]],
         [displayMsgCmd "main:0"], 0⟩ := by
    show Out.bind (windowsStatus o w "main" [⟨"main", 0, "shell", true⟩]) (fun wins =>
        Out.bind (sessionsStatus o w []) (fun others =>
          Out.pure (JVal.obj [("name", .str "main"), ("attached", .bool true),
            ("windows", .arr wins)] :: others))) = _
    rw [hws]
    rfl
  show (Out.bind (TmuxOrchestrator.get_tmux_sessions o w) (fun sessions =>
      Out.bind (sessionsStatus o w sessions) (fun sdata =>
        Out.pure (JVal.obj [("timestamp", .str w.now_iso),
          ("sessions", .arr sdata)])))).res = _
  rw [Out.bind_res_ok _ _ _ (congrArg Out.res hs)]
  rw [Out.bind_res_ok _ _ _ (congrArg Out.res hss)]
  rfl

/-- A concrete environment with one attached session `main`, one active
window `0:shell`, and a whitespace-only `display-message` reply. -/
def wldC10 : World :=
  { proc := fun cmd =>
      if cmd = listSessionsCmd then ProcRes.ok "main:1" ""
      else if cmd = listWindowsCmd "main" then ProcRes.ok "0:shell:1" ""
      else if cmd = displayMsgCmd "main:0" then ProcRes.ok "  " ""
      else ProcRes.err 1 "" "",
    now_iso := "2024-01-01T00:00:00", now_hms := "00:00:00", op_input := "" }

/-- C10 witness: the blank-reply behaviour at the concrete
environment. -/
theorem C10_witness :
    TmuxOrchestrator.get_window_info TmuxOrchestrator.new (.str "main") (.int 0) wldC10
      = ⟨.ok JVal.null, [displayMsgCmd "main:0"], 0⟩ ∧
    (TmuxOrchestrator.get_all_windows_status TmuxOrchestrator.new wldC10).res
      = .ok (.obj [("timestamp", .str "2024-01-01T00:00:00"),
          ("sessions", .arr [.obj [("name", .str "main"), ("attached", .bool true),
            ("windows", .arr [.obj [("index", .int 0), ("name", .str "shell"),
              ("active", .bool true), ("info", JVal.null)]])]])]) :=
  C10_blank_display_none_embedded TmuxOrchestrator.new wldC10 "  " "" "" ""
    rfl rfl rfl rfl
